import Mathlib

/-!
Shallow embedding of the Pi42 market-data dashboard and API proxy
(Next.js / TypeScript source), together with proofs of the spec's claims.

Conventions of the embedding:
* JavaScript numbers are modelled as rationals (`ℚ`); where the source
  coerces numeric-looking strings via `Number(...)`, the embedded data
  carries the numeric value directly as `Option ℚ` (absent / undefined
  being `none`).
* `JSON.parse` and `JSON.stringify` are the JavaScript runtime's and are
  taken as parameters (`parse : String → Option Json`,
  `stringify : Json → String`) of the functions that use them.
* JavaScript's stable `Array.prototype.sort` (stable since ES2019) is
  embedded as a stable insertion sort on a rational sort key.
* `arr.slice(-n)` is embedded as `jsSliceLast n`.
-/

namespace Pi42

/-- JSON values, the domain of the proxy's request bodies and of
`JSON.parse` results. -/
inductive Json where
  | null
  | bool (b : Bool)
  | num (q : ℚ)
  | str (s : String)
  | arr (xs : List Json)
  | obj (kvs : List (String × Json))

/-- Embedding of `xs.slice(-n)` on a JavaScript array: the last `n` elements
(all of them when there are fewer than `n`). -/
def jsSliceLast (n : Nat) (xs : List α) : List α :=
  xs.drop (xs.length - n)

/-- Embedding of `s.startsWith(p)` on JavaScript strings, over the
character data. -/
def jsStartsWith (s p : String) : Bool :=
  s.data.take p.data.length = p.data

/-- Embedding of `s.trim()` on JavaScript strings: strip leading and
trailing whitespace. -/
def jsTrim (s : String) : String :=
  ⟨((s.data.dropWhile Char.isWhitespace).reverse.dropWhile Char.isWhitespace).reverse⟩

/-! ### Request Proxy (route handler `POST`, src/unnamed/part_000) -/

/-- A single zod validation issue (element of `parsed.error.issues`). -/
structure Issue where
  path : List String
  message : String
deriving DecidableEq, Repr

/-- Property access `rawObj[key]` on the fields of a parsed JSON object:
the last binding wins, matching `JSON.parse` duplicate-key semantics. -/
def jget (kvs : List (String × Json)) (key : String) : Option Json :=
  match kvs with
  | [] => none
  | (k, v) :: rest => match jget rest key with
    | some w => some w
    | none => if k = key then some v else none

/-- The methods accepted by `requestSchema`'s `z.enum`. -/
def allowedMethods : List String := ["GET", "POST", "PUT", "DELETE", "PATCH"]

/-- The targets accepted by `requestSchema`'s `z.enum`, defaulting to
"public". -/
def allowedTargets : List String := ["public", "private"]

/-- The proxy request after successful validation by `requestSchema`
(zod's `parsed.data`). -/
structure ParsedRequest where
  method : String
  path : String
  target : String
  query : List (String × Json)
  headers : List (String × String)
  body : Option Json

/-- Is a JSON value a member of `z.union([z.string(), z.number(), z.boolean()])`,
the value type of `requestSchema`'s `query` record? -/
def isQueryValue : Json → Bool
  | .str _ => true
  | .num _ => true
  | .bool _ => true
  | _ => false

/-- Validator `z.enum(values)` applied to a field: the value must be a string equal to
one of `values`. -/
def checkEnum (field : String) (values : List String) (j : Json) :
    Except (List Issue) String :=
  match j with
  | .str s => if values.contains s then .ok s else
      .error [⟨[field], "Invalid enum value"⟩]
  | _ => .error [⟨[field], "Expected string"⟩]

/-- Validator `z.string().startsWith("/")` applied to the `path` field. -/
def checkPath (j : Option Json) : Except (List Issue) String :=
  match j with
  | some (.str s) =>
      if jsStartsWith s "/" then .ok s
      else .error [⟨["path"], "Invalid input: must start with /"⟩]
  | some _ => .error [⟨["path"], "Expected string"⟩]
  | none => .error [⟨["path"], "Required"⟩]

/-- The required `method` field (`z.enum` of the five HTTP verbs). -/
def checkMethod (j : Option Json) : Except (List Issue) String :=
  match j with
  | some v => checkEnum "method" allowedMethods v
  | none => .error [⟨["method"], "Required"⟩]

/-- The `target` field: `z.enum(["public","private"]).default("public")`. -/
def checkTarget (j : Option Json) : Except (List Issue) String :=
  match j with
  | some v => checkEnum "target" allowedTargets v
  | none => .ok "public"

/-- The `query` field:
`z.record(z.string(), z.union([z.string(), z.number(), z.boolean()])).optional().default({})`. -/
def checkQuery (j : Option Json) : Except (List Issue) (List (String × Json)) :=
  match j with
  | none => .ok []
  | some (.obj kvs) =>
      if kvs.all (fun kv => isQueryValue kv.2) then .ok kvs
      else .error [⟨["query"], "Invalid record value"⟩]
  | some _ => .error [⟨["query"], "Expected object"⟩]

/-- The `headers` field: `z.record(z.string(), z.string()).optional().default({})`. -/
def checkHeaders (j : Option Json) : Except (List Issue) (List (String × String)) :=
  match j with
  | none => .ok []
  | some (.obj kvs) =>
      match kvs.mapM (fun kv => match kv.2 with
        | .str s => some (kv.1, s)
        | _ => none) with
      | some hs => .ok hs
      | none => .error [⟨["headers"], "Expected string"⟩]
  | some _ => .error [⟨["headers"], "Expected object"⟩]

/-- The `body` field: `z.union([z.string(), z.record(z.string(), z.any())]).optional()`. -/
def checkBody (j : Option Json) : Except (List Issue) (Option Json) :=
  match j with
  | none => .ok none
  | some (.str s) => .ok (some (.str s))
  | some (.obj kvs) => .ok (some (.obj kvs))
  | some _ => .error [⟨["body"], "Invalid input"⟩]

/-- Combine two validation results, accumulating issues the way zod's
`safeParse` reports every failing field. -/
def zodZip : Except (List Issue) α → Except (List Issue) β →
    Except (List Issue) (α × β)
  | .ok a, .ok b => .ok (a, b)
  | .ok _, .error e => .error e
  | .error e, .ok _ => .error e
  | .error e1, .error e2 => .error (e1 ++ e2)

/-- Embedding of `requestSchema.safeParse(raw)`: validates the raw JSON request body and
either produces the parsed request or the list of validation issues. -/
def safeParse (raw : Json) : Except (List Issue) ParsedRequest :=
  match raw with
  | .obj kvs =>
      match zodZip (checkMethod (jget kvs "method"))
        (zodZip (checkPath (jget kvs "path"))
          (zodZip (checkTarget (jget kvs "target"))
            (zodZip (checkQuery (jget kvs "query"))
              (zodZip (checkHeaders (jget kvs "headers"))
                (checkBody (jget kvs "body")))))) with
      | .ok (m, p, t, q, h, b) =>
          .ok { method := m, path := p, target := t, query := q,
                headers := h, body := b }
      | .error e => .error e
  | _ => .error [⟨[], "Expected object"⟩]

/-- Coercion `String(value)` for a validated query value (string, number or boolean),
as used by `url.searchParams.set(key, String(value))`. The textual form of a
number is opaque to every claim, so it is delegated to a parameter-free
canonical printing of the rational. -/
def jsToString : Json → String
  | .str s => s
  | .bool true => "true"
  | .bool false => "false"
  | .num q => toString q
  | _ => ""

/-- Embedding of `searchParams.set` and `Headers.set`: overwrite an existing
binding for the key, else append. Header keys compare case-insensitively,
which the caller arranges by lowercasing. -/
def setParam (ps : List (String × String)) (key value : String) :
    List (String × String) :=
  if ps.any (fun p => p.1 = key) then
    ps.map (fun p => if p.1 = key then (key, value) else p)
  else ps ++ [(key, value)]

/-- The URL the proxy forwards to: the target's base, the request path, and
the accumulated search parameters. -/
structure ForwardUrl where
  target : String
  path : String
  searchParams : List (String × String)

/-- The `RequestInit` the proxy builds for `fetch` (`cache: "no-store"` has
no observable counterpart here). -/
structure ForwardInit where
  method : String
  headers : List (String × String)
  body : Option String

/-- Embedding of `new URL(path, baseUrl)` followed by the `query` loop: values that are
the empty string are skipped, the rest `String(...)`-coerced and set. (The
validated query values are strings, numbers or booleans, so the
`undefined`/`null` guards of the source never fire.) -/
def buildUrl (req : ParsedRequest) : ForwardUrl :=
  { target := req.target
    path := req.path
    searchParams := req.query.foldl (fun ps kv =>
      match kv.2 with
      | .str "" => ps
      | v => setParam ps kv.1 (jsToString v)) [] }

/-- The default forward headers plus the validated request headers: empty
values are skipped (they are falsy), the rest `Headers.set` with
case-insensitive keys (modelled by lowercasing). -/
def buildHeaders (req : ParsedRequest) : List (String × String) :=
  req.headers.foldl (fun hs kv =>
      if kv.2 = "" then hs else setParam hs kv.1.toLower kv.2)
    [("accept", "application/json"), ("content-type", "application/json")]

/-- The forward `RequestInit`: a string body verbatim, an object body
`JSON.stringify`-serialised, an absent body omitted. -/
def buildInit (stringify : Json → String) (req : ParsedRequest) : ForwardInit :=
  { method := req.method
    headers := buildHeaders req
    body := req.body.map (fun b =>
      match b with
      | .str s => s
      | other => stringify other) }

/-- What the route handler decides to do once the body is parsed JSON:
reject with a 400 validation response, or issue the upstream `fetch`. -/
inductive PostAction where
  | reject (issues : List Issue)
  | forward (url : ForwardUrl) (init : ForwardInit)

/-- Lines 23–62 of the route handler: validate, then either answer 400 or
build the upstream request. No upstream request exists on the reject path. -/
def postAction (stringify : Json → String) (raw : Json) : PostAction :=
  match safeParse raw with
  | .error issues => .reject issues
  | .ok req => .forward (buildUrl req) (buildInit stringify req)

/-- The upstream `fetch` result as the handler observes it: HTTP status,
status text, and the body text (`await response.text()`). -/
structure UpstreamResponse where
  status : Nat
  statusText : String
  body : String

/-- The `data` field of a proxy response body. -/
inductive ProxyData where
  | null
  | json (j : Json)
  | text (s : String)

/-- Embedding of `data = text ? JSON.parse(text) : null`, with a parse exception caught
and degraded to the raw text. -/
def upstreamData (parse : String → Option Json) (text : String) : ProxyData :=
  if text = "" then .null
  else match parse text with
    | some j => .json j
    | none => .text text

/-- The JSON body of a proxy response. -/
inductive ProxyBody where
  | invalid (error : String) (issues : List Issue)
  | result (status : Nat) (statusText : String) (data : ProxyData)
  | failure (error : String)

/-- A proxy HTTP response: its own status code and its JSON body. -/
structure ProxyResponse where
  httpStatus : Nat
  body : ProxyBody

/-- Lines 62–79: translate a completed upstream response into the proxy's
response — `{status, statusText, data}` sent with the upstream's status. -/
def postRespond (parse : String → Option Json) (up : UpstreamResponse) :
    ProxyResponse :=
  { httpStatus := up.status
    body := .result up.status up.statusText (upstreamData parse up.body) }

/-- The whole `POST` handler on a JSON request body whose upstream fetch
(if one is issued) completes with `up`. -/
def POST (stringify : Json → String) (parse : String → Option Json)
    (raw : Json) (up : UpstreamResponse) : ProxyResponse :=
  match postAction stringify raw with
  | .reject issues =>
      { httpStatus := 400, body := .invalid "Invalid request payload" issues }
  | .forward _ _ => postRespond parse up

/-! ### Snapshot Aggregator (`Home`, `summarise`, src/unnamed/part_001) -/

/-- The slice of `Pi42Contract` the aggregator and dashboard read. The
numeric-or-string metadata fields it never touches are omitted. -/
structure Pi42Contract where
  name : String
  market : Option String
  isDefaultContract : Bool
  depthGrouping : List String
deriving DecidableEq, Repr

/-- A `Pi42MarketInfoEntry`: its optional string fields carry numeric text,
modelled by the rational value `Number(...)` would produce (`none` =
field absent). -/
structure Pi42MarketInfoEntry where
  lastPrice : Option ℚ
  marketPrice : Option ℚ
  priceChangePercent : Option ℚ
  baseAssetVolume : Option ℚ
  quoteAssetVolume : Option ℚ
  upcomingFundingRate : Option ℚ
deriving DecidableEq, Repr

/-- Embedding of `toNumber`: `null`/`undefined` give `undefined`, numbers pass through.
(On the `Option ℚ` model of numeric strings the `Number.isFinite` guard is
always satisfied.) -/
def toNumber (value : Option ℚ) : Option ℚ := value

/-- Record `CombinedContractMetrics`: the derived per-contract view `Home` builds. -/
structure CombinedContractMetrics where
  contract : Pi42Contract
  marketStats : Option Pi42MarketInfoEntry
  market : String
  lastPrice : Option ℚ
  markPrice : Option ℚ
  priceChangePercent : Option ℚ
  baseVolume : Option ℚ
  quoteVolume : Option ℚ
  fundingRateBps : Option ℚ
deriving DecidableEq, Repr

/-- The per-contract mapping inside `Home` (lines 144–166): join a contract
with its stats entry and compute the derived numeric fields, funding in
basis points being `Number(stats.upcomingFundingRate) * 10000` when the
rate is present and `undefined` otherwise. -/
def combineContract (contract : Pi42Contract)
    (stats : Option Pi42MarketInfoEntry) : CombinedContractMetrics :=
  { contract := contract
    marketStats := stats
    market := contract.market.getD "Unknown"
    lastPrice := toNumber ((stats.bind (·.lastPrice)).or (stats.bind (·.marketPrice)))
    markPrice := toNumber (stats.bind (·.marketPrice))
    priceChangePercent := toNumber (stats.bind (·.priceChangePercent))
    baseVolume := toNumber (stats.bind (·.baseAssetVolume))
    quoteVolume := toNumber (stats.bind (·.quoteAssetVolume))
    fundingRateBps := (stats.bind (·.upcomingFundingRate)).map (· * 10000) }

/-- JavaScript's stable `Array.prototype.sort` with comparator
`(a, b) => key b - key a` (descending by `key`, ties in original order),
embedded as a stable insertion sort. -/
def sortDescBy (key : α → ℚ) (l : List α) : List α :=
  List.insertionSort (fun a b => key b ≤ key a) l

/-- Embedding of `computeCombinedContracts`: keep the contracts with a (truthy) stats
entry and sort descending by quote volume (missing treated as 0). -/
def computeCombinedContracts (contracts : List CombinedContractMetrics) :
    List CombinedContractMetrics :=
  sortDescBy (fun item => item.quoteVolume.getD 0)
    (contracts.filter (fun item => item.marketStats.isSome))

/-- The `Summary` record `summarise` returns. -/
structure Summary where
  totalContracts : Nat
  markets : List String
  totalQuoteVolume : ℚ
  totalBaseVolume : ℚ
  averageFundingRate : ℚ
  topMovers : List CombinedContractMetrics
deriving DecidableEq, Repr

/-- Embedding of `summarise`: pure reductions over the combined list — volume totals,
mean funding in bps (absent contributing 0; 0 on the empty list), and the
top 6 contracts by absolute price-change percent under the stable sort. -/
def summarise (contracts : List CombinedContractMetrics)
    (markets : List String) : Summary :=
  { totalContracts := contracts.length
    markets := markets
    totalQuoteVolume :=
      contracts.foldl (fun acc item => acc + item.quoteVolume.getD 0) 0
    totalBaseVolume :=
      contracts.foldl (fun acc item => acc + item.baseVolume.getD 0) 0
    averageFundingRate :=
      if 0 < contracts.length then
        (contracts.foldl (fun acc item => acc + item.fundingRateBps.getD 0) 0)
          / contracts.length
      else 0
    topMovers :=
      (sortDescBy (fun item => |item.priceChangePercent.getD 0|)
        (contracts.filter (fun item => item.priceChangePercent.isSome))).take 6 }

/-! ### Market data records (src/app/src/types/pi42.ts) -/

/-- A `Pi42Ticker` event payload. -/
structure Pi42Ticker where
  e : String
  E : ℤ
  s : String
  p : String
  P : String
  w : String
  c : String
  Q : String
  o : String
  h : String
  l : String
  v : String
  q : String
  O : ℤ
  C : ℤ
  F : ℤ
  L : ℤ
  n : ℤ
deriving DecidableEq, Repr

/-- A `Pi42DepthResponse`: full bid/ask snapshot for one symbol. -/
structure Pi42DepthResponse where
  e : String
  E : ℤ
  T : ℤ
  s : String
  U : ℤ
  u : ℤ
  pu : ℤ
  b : List (String × String)
  a : List (String × String)
deriving DecidableEq, Repr

/-- A `Pi42AggTrade`: one aggregated trade print. -/
structure Pi42AggTrade where
  e : String
  E : ℤ
  a : ℤ
  s : String
  p : String
  q : String
  f : ℤ
  l : ℤ
  T : ℤ
  m : Bool
deriving DecidableEq, Repr

/-- A `Pi42Kline`: one OHLC candle, all fields string-typed as upstream
delivers them. -/
structure Pi42Kline where
  startTime : String
  open_ : String
  high : String
  low : String
  close : String
  endTime : String
  volume : String
deriving DecidableEq, Repr

/-! ### Realtime Feed Reconciler merge handlers (`Dashboard`) -/

/-- Embedding of `handleTrade` (line 1185): `setTrades(prev => [...prev.slice(-180), payload])`. -/
def handleTrade (prev : List Pi42AggTrade) (payload : Pi42AggTrade) :
    List Pi42AggTrade :=
  jsSliceLast 180 prev ++ [payload]

/-- Embedding of `handleKline` (lines 1190–1202): ignore a payload without `k`; else
replace the entry with the same `startTime` in place, or append, then
`slice(-400)`. -/
def handleKline (prev : List Pi42Kline) (payload : Option Pi42Kline) :
    List Pi42Kline :=
  match payload with
  | none => prev
  | some k =>
      let next :=
        match prev.findIdx? (fun item => item.startTime = k.startTime) with
        | some index => prev.set index k
        | none => prev ++ [k]
      jsSliceLast 400 next

/-! ### Market Bundle Fetcher (`fetchMarketBundle` and its caller) -/

/-- The `{data: T}` wrapper the ticker/depth/trades endpoints return inside
the proxy's `data` field. -/
structure DataWrap (α : Type) where
  data : α
deriving DecidableEq, Repr

/-- The resolved market bundle. -/
structure MarketBundle where
  ticker : Option Pi42Ticker
  depth : Option Pi42DepthResponse
  trades : List Pi42AggTrade
  klines : List Pi42Kline
deriving DecidableEq, Repr

/-- Embedding of `fetchMarketBundle`: `Promise.all` over the four proxy calls — it
resolves only when all four resolve, and rejects as soon as any one
rejects. On success the trades are `slice(-120)`-truncated and `null`
payloads degrade to `null`/`[]`. The four arguments are the settled
results of the four `proxyRequest` calls, in source order. -/
def fetchMarketBundle
    (tickerRes : Except String (Option (DataWrap Pi42Ticker)))
    (depthRes : Except String (Option (DataWrap Pi42DepthResponse)))
    (tradesRes : Except String (Option (DataWrap (List Pi42AggTrade))))
    (klinesRes : Except String (Option (List Pi42Kline))) :
    Except String MarketBundle :=
  match tickerRes, depthRes, tradesRes, klinesRes with
  | .ok ticker, .ok depth, .ok trades, .ok klines =>
      .ok { ticker := ticker.map (·.data)
            depth := depth.map (·.data)
            trades := match trades with
              | some w => jsSliceLast 120 w.data
              | none => []
            klines := klines.getD [] }
  | .error e, _, _, _ => .error e
  | _, .error e, _, _ => .error e
  | _, _, .error e, _ => .error e
  | _, _, _, .error e => .error e

/-- The dashboard state the bundle effect writes
(`ticker`/`depth`/`trades`/`klines`). -/
structure DashState where
  ticker : Option Pi42Ticker
  depth : Option Pi42DepthResponse
  trades : List Pi42AggTrade
  klines : List Pi42Kline
deriving DecidableEq, Repr

/-- The bundle effect's `.then`/`.catch` (lines 1127–1137): a resolved
bundle replaces all four state slices; a rejection only logs and leaves the
state untouched. -/
def applyBundleResult (s : DashState) (res : Except String MarketBundle) :
    DashState :=
  match res with
  | .ok bundle =>
      { ticker := bundle.ticker, depth := bundle.depth,
        trades := bundle.trades, klines := bundle.klines }
  | .error _ => s

/-! ### API Explorer submission (`execute`, lines 930–958) -/

/-- The editable free-text fields of the API Explorer form that `execute`
reads. -/
structure ExplorerFields where
  method : String
  path : String
  target : String
  query : String
  body : String
  headers : String
deriving DecidableEq, Repr

/-- The payload `execute` hands to `proxyRequest` when every parse
succeeds. -/
structure ExplorerPayload where
  method : String
  path : String
  target : String
  query : Json
  body : Option Json
  headers : Json

/-- Embedding of the payload construction in `execute`: `query` and `headers` parse with the
empty (trimmed) string standing for `{}`; the body is `undefined` when its
text is empty or the method is GET and parsed otherwise. `none` is the
`catch` path — some `JSON.parse` threw, the error is shown locally and
`proxyRequest` is never invoked. -/
def executePayload (parse : String → Option Json) (f : ExplorerFields) :
    Option ExplorerPayload :=
  match (if jsTrim f.query = "" then some (Json.obj []) else parse f.query) with
  | none => none
  | some queryPayload =>
    match (if jsTrim f.body = "" || f.method = "GET" then some none
           else (parse f.body).map some) with
    | none => none
    | some bodyPayload =>
      match (if jsTrim f.headers = "" then some (Json.obj []) else parse f.headers) with
      | none => none
      | some headersPayload =>
          some { method := f.method, path := f.path, target := f.target,
                 query := queryPayload, body := bodyPayload,
                 headers := headersPayload }

/-! ### Realtime feed subscription lifecycle (`Dashboard`, lines 1168–1216)

The subscription effect depends on `(lowerSymbol, depthGroupingValue,
interval)`. The UI framework runs the previous effect's cleanup —
`unsubscribe` of the previous topic list and `socket.off` of its four
handlers — before the next effect body runs `subscribe` and `socket.on`.
The trace below is that protocol made explicit. -/

/-- One logical selection the effect depends on. -/
structure Selection where
  lowerSymbol : String
  depthGroupingValue : String
  interval : String
deriving DecidableEq, Repr

/-- The topic list built at lines 1172–1177. -/
def topicsFor (sel : Selection) : List String :=
  [sel.lowerSymbol ++ "@depth_" ++ sel.depthGroupingValue,
   sel.lowerSymbol ++ "@aggTrade",
   sel.lowerSymbol ++ "@ticker",
   sel.lowerSymbol ++ "@kline_" ++ sel.interval]

/-- One socket interaction of the subscription effect. -/
inductive FeedEvent where
  | subscribe (topics : List String)
  | attachListeners (topics : List String)
  | unsubscribe (topics : List String)
  | detachListeners (topics : List String)
deriving DecidableEq, Repr

/-- The effect body: subscribe to the selection's topics, then attach the
four handlers. -/
def setupEvents (sel : Selection) : List FeedEvent :=
  [.subscribe (topicsFor sel), .attachListeners (topicsFor sel)]

/-- The effect cleanup: unsubscribe the selection's topics, then detach its
four handlers. -/
def cleanupEvents (sel : Selection) : List FeedEvent :=
  [.unsubscribe (topicsFor sel), .detachListeners (topicsFor sel)]

/-- The socket interactions that follow once `prev` is the active
selection: each further selection change is the previous selection's
cleanup followed by the new selection's setup. -/
def feedTraceFrom (prev : Selection) : List Selection → List FeedEvent
  | [] => []
  | sel :: rest => cleanupEvents prev ++ setupEvents sel ++ feedTraceFrom sel rest

/-- The socket interactions of a whole selection sequence: the first
selection only sets up; each later one is preceded by the previous
selection's cleanup. -/
def feedTrace : List Selection → List FeedEvent
  | [] => []
  | sel :: rest => setupEvents sel ++ feedTraceFrom sel rest

/-- Remove one occurrence of a topic list (an `unsubscribe` undoes one
`subscribe`). -/
def removeOne (ts : List String) : List (List String) → List (List String)
  | [] => []
  | x :: xs => if x = ts then xs else x :: removeOne ts xs

/-- The socket-side subscription state: the topic lists currently
subscribed and the topic lists whose handlers are currently attached. -/
structure FeedState where
  activeTopicSets : List (List String)
  activeListenerSets : List (List String)
deriving DecidableEq, Repr

/-- Apply one socket interaction. -/
def stepFeed (s : FeedState) : FeedEvent → FeedState
  | .subscribe ts => { s with activeTopicSets := s.activeTopicSets ++ [ts] }
  | .unsubscribe ts => { s with activeTopicSets := removeOne ts s.activeTopicSets }
  | .attachListeners ts =>
      { s with activeListenerSets := s.activeListenerSets ++ [ts] }
  | .detachListeners ts =>
      { s with activeListenerSets := removeOne ts s.activeListenerSets }

/-- The `status` field of a proxy response JSON body, when the body is the
`{status, statusText, data}` shape. -/
def ProxyBody.statusField : ProxyBody → Option Nat
  | .result status _ _ => some status
  | _ => none

/-- The subscription state reached after a selection-change sequence. -/
def runFeed (sels : List Selection) : FeedState :=
  (feedTrace sels).foldl stepFeed { activeTopicSets := [], activeListenerSets := [] }

/-- Every state passed through while replaying a list of socket
interactions from a given state (the scan of `stepFeed`). -/
def feedStatesFrom (s : FeedState) : List FeedEvent → List FeedState
  | [] => [s]
  | e :: es => s :: feedStatesFrom (stepFeed s e) es

/-- Every state passed through while processing the trace (for the
"at every point" part of the lifecycle claim). -/
def feedStates (sels : List Selection) : List FeedState :=
  feedStatesFrom { activeTopicSets := [], activeListenerSets := [] } (feedTrace sels)

/-! ### Concrete instances used by witnesses -/

/-- A serializer standing in for `JSON.stringify` in concrete instances. -/
def stringify0 : Json → String := fun _ => ""

/-- A parse function standing in for `JSON.parse` in concrete instances:
every text fails to parse. -/
def parse0 : String → Option Json := fun _ => none

/-- A concrete valid proxy request body. -/
def rawValid : Json :=
  .obj [("method", .str "GET"), ("path", .str "/v1/market/ticker24Hr/BTCINR")]

/-- What `rawValid` validates to. -/
def reqValid : ParsedRequest :=
  { method := "GET", path := "/v1/market/ticker24Hr/BTCINR", target := "public",
    query := [], headers := [], body := none }

/-- A concrete upstream response with an empty body. -/
def up200 : UpstreamResponse := { status := 200, statusText := "OK", body := "" }

/-- A concrete upstream response whose non-empty body is not JSON. -/
def upText : UpstreamResponse :=
  { status := 502, statusText := "Bad Gateway", body := "nope" }

/-- A concrete proxy request body violating the schema twice: unknown
method and a path that does not start with a slash. -/
def rawInvalid : Json := .obj [("method", .str "FETCH"), ("path", .str "market")]

/-- The issue list `rawInvalid` produces. -/
def issuesInvalid : List Issue :=
  [⟨["method"], "Invalid enum value"⟩, ⟨["path"], "Invalid input: must start with /"⟩]

/-- A concrete contract used in the aggregation instances. -/
def sampleContract : Pi42Contract :=
  { name := "BTCINR", market := some "INR", isDefaultContract := true,
    depthGrouping := ["0.1"] }

/-- A stats entry carrying only an upcoming funding rate. -/
def statsOnlyFunding (r : ℚ) : Pi42MarketInfoEntry :=
  { lastPrice := none, marketPrice := none, priceChangePercent := none,
    baseAssetVolume := none, quoteAssetVolume := none,
    upcomingFundingRate := some r }

/-- A combined metrics item with the given name whose only populated
numeric field is the price-change percent. -/
def pcpItemNamed (n : String) (q : ℚ) : CombinedContractMetrics :=
  { contract := { name := n, market := none, isDefaultContract := false,
                  depthGrouping := [] },
    marketStats := none, market := "Unknown", lastPrice := none,
    markPrice := none, priceChangePercent := some q, baseVolume := none,
    quoteVolume := none, fundingRateBps := none }

/-- A combined metrics item identified by its price-change percent. -/
def pcpItem (q : ℚ) : CombinedContractMetrics := pcpItemNamed "X" q

/-- The i-th of a stream of distinct aggregated trades. -/
def tradeN (i : Nat) : Pi42AggTrade :=
  { e := "aggTrade", E := i, a := i, s := "BTCINR", p := "100", q := "1",
    f := i, l := i, T := i, m := false }

/-- A kline with start time "100" and the given close price. -/
def k100 (closePrice : String) : Pi42Kline :=
  { startTime := "100", open_ := "1", high := "2", low := "0",
    close := closePrice, endTime := "160", volume := "5" }

/-- An empty dashboard state. -/
def s0 : DashState := { ticker := none, depth := none, trades := [], klines := [] }

/-- Explorer fields: a POST with every free-text JSON field left empty. -/
def explorerEmptyPost : ExplorerFields :=
  { method := "POST", path := "/x", target := "public", query := "",
    body := "", headers := "" }

/-- Explorer fields whose query text is not valid JSON. -/
def explorerBadQuery : ExplorerFields :=
  { method := "GET", path := "/x", target := "public", query := "nope",
    body := "", headers := "" }

/-- A concrete selection A. -/
def selA : Selection :=
  { lowerSymbol := "btcinr", depthGroupingValue := "0.1", interval := "1h" }

/-- A concrete selection B. -/
def selB : Selection :=
  { lowerSymbol := "ethinr", depthGroupingValue := "0.5", interval := "5m" }

/-! ## Theorems -/

/-! ### Validation issues are never empty on failure -/

theorem checkEnum_error_ne_nil {field : String} {values : List String}
    {j : Json} {e : List Issue} (h : checkEnum field values j = .error e) :
    e ≠ [] := by
  intro hc
  subst hc
  cases j <;> simp only [checkEnum] at h <;> (try split at h) <;> simp_all

theorem checkMethod_error_ne_nil {j : Option Json} {e : List Issue}
    (h : checkMethod j = .error e) : e ≠ [] := by
  cases j with
  | none =>
      intro hc
      subst hc
      simp only [checkMethod] at h
      simp_all
  | some v => exact checkEnum_error_ne_nil h

theorem checkPath_error_ne_nil {j : Option Json} {e : List Issue}
    (h : checkPath j = .error e) : e ≠ [] := by
  intro hc
  subst hc
  cases j with
  | none => simp only [checkPath] at h; simp_all
  | some v =>
      cases v <;> simp only [checkPath] at h <;> (try split at h) <;> simp_all

theorem checkTarget_error_ne_nil {j : Option Json} {e : List Issue}
    (h : checkTarget j = .error e) : e ≠ [] := by
  cases j with
  | none => exact absurd h (by simp [checkTarget])
  | some v => exact checkEnum_error_ne_nil h

theorem checkQuery_error_ne_nil {j : Option Json} {e : List Issue}
    (h : checkQuery j = .error e) : e ≠ [] := by
  intro hc
  subst hc
  cases j with
  | none => exact Except.noConfusion h
  | some v =>
      cases v <;> simp only [checkQuery] at h <;> (try split at h) <;> simp_all

theorem checkHeaders_error_ne_nil {j : Option Json} {e : List Issue}
    (h : checkHeaders j = .error e) : e ≠ [] := by
  intro hc
  subst hc
  cases j with
  | none => exact Except.noConfusion h
  | some v =>
      cases v <;> simp only [checkHeaders] at h <;> (try split at h) <;> simp_all

theorem checkBody_error_ne_nil {j : Option Json} {e : List Issue}
    (h : checkBody j = .error e) : e ≠ [] := by
  intro hc
  subst hc
  cases j with
  | none => exact Except.noConfusion h
  | some v => cases v <;> simp only [checkBody] at h <;> simp_all

theorem zodZip_error_ne_nil {α β : Type} {a : Except (List Issue) α}
    {b : Except (List Issue) β}
    (ha : ∀ e, a = .error e → e ≠ []) (hb : ∀ e, b = .error e → e ≠ [])
    {e : List Issue} (h : zodZip a b = .error e) : e ≠ [] := by
  cases a with
  | ok av =>
      cases b with
      | ok bv => simp [zodZip] at h
      | error eb => simp only [zodZip, Except.error.injEq] at h; subst h; exact hb _ rfl
  | error ea =>
      cases b with
      | ok bv => simp only [zodZip, Except.error.injEq] at h; subst h; exact ha _ rfl
      | error eb =>
          simp only [zodZip, Except.error.injEq] at h; subst h
          have := ha ea rfl
          simp [List.append_eq_nil]
          intro h1 _
          exact this h1

theorem safeParse_error_ne_nil {raw : Json} {issues : List Issue}
    (h : safeParse raw = .error issues) : issues ≠ [] := by
  cases raw with
  | obj kvs =>
      rw [safeParse] at h
      cases hz : zodZip (checkMethod (jget kvs "method"))
          (zodZip (checkPath (jget kvs "path"))
            (zodZip (checkTarget (jget kvs "target"))
              (zodZip (checkQuery (jget kvs "query"))
                (zodZip (checkHeaders (jget kvs "headers"))
                  (checkBody (jget kvs "body")))))) with
      | ok v => rw [hz] at h; simp at h
      | error e =>
          rw [hz] at h
          simp only [Except.error.injEq] at h
          subst h
          refine zodZip_error_ne_nil (fun e1 he => checkMethod_error_ne_nil he)
            (fun e1 he => zodZip_error_ne_nil (fun e2 he => checkPath_error_ne_nil he)
              (fun e2 he => zodZip_error_ne_nil (fun e3 he => checkTarget_error_ne_nil he)
                (fun e3 he => zodZip_error_ne_nil (fun e4 he => checkQuery_error_ne_nil he)
                  (fun e4 he => zodZip_error_ne_nil (fun e5 he => checkHeaders_error_ne_nil he)
                    (fun e5 he => checkBody_error_ne_nil he) he) he) he) he) hz
  | null =>
      rw [show safeParse Json.null
          = Except.error [⟨[], "Expected object"⟩] from rfl] at h
      simp at h
      exact fun hc => by simp [hc] at h
  | bool b =>
      rw [show safeParse (Json.bool b)
          = Except.error [⟨[], "Expected object"⟩] from rfl] at h
      simp at h
      exact fun hc => by simp [hc] at h
  | num q =>
      rw [show safeParse (Json.num q)
          = Except.error [⟨[], "Expected object"⟩] from rfl] at h
      simp at h
      exact fun hc => by simp [hc] at h
  | str s =>
      rw [show safeParse (Json.str s)
          = Except.error [⟨[], "Expected object"⟩] from rfl] at h
      simp at h
      exact fun hc => by simp [hc] at h
  | arr xs =>
      rw [show safeParse (Json.arr xs)
          = Except.error [⟨[], "Expected object"⟩] from rfl] at h
      simp at h
      exact fun hc => by simp [hc] at h

/-- C1: for every valid proxy request (one the schema accepts) whose
upstream fetch completes, the proxy's JSON response body carries a
`status` field equal to the upstream HTTP status, and the proxy's own HTTP
status is that same upstream status. -/
theorem proxy_mirrors_upstream_status
    (stringify : Json → String) (parse : String → Option Json)
    (raw : Json) (req : ParsedRequest) (up : UpstreamResponse)
    (h : safeParse raw = .ok req) :
    (POST stringify parse raw up).httpStatus = up.status ∧
    (POST stringify parse raw up).body.statusField = some up.status := by
  simp [POST, postAction, h, postRespond, ProxyBody.statusField]

/-- Witness for C1: a concrete valid request against a 200 upstream. -/
theorem proxy_mirrors_upstream_status_witness :
    (POST stringify0 parse0 rawValid up200).httpStatus = 200 ∧
    (POST stringify0 parse0 rawValid up200).body.statusField = some 200 :=
  proxy_mirrors_upstream_status stringify0 parse0 rawValid reqValid up200 (by rfl)

/-- C3: every request body the schema rejects is answered with HTTP 400,
an `error` string and a non-empty `issues` list, and the handler never
reaches the upstream fetch (`postAction` is `reject`, not `forward`). -/
theorem proxy_schema_violation_rejected
    (stringify : Json → String) (parse : String → Option Json)
    (raw : Json) (issues : List Issue) (up : UpstreamResponse)
    (h : safeParse raw = .error issues) :
    issues ≠ [] ∧
    postAction stringify raw = .reject issues ∧
    POST stringify parse raw up =
      { httpStatus := 400, body := .invalid "Invalid request payload" issues } := by
  refine ⟨safeParse_error_ne_nil h, ?_, ?_⟩ <;> simp [postAction, POST, h]

/-- Witness for C3: a request with an unknown method and a slash-less path. -/
theorem proxy_schema_violation_rejected_witness :
    issuesInvalid ≠ [] ∧
    postAction stringify0 rawInvalid = .reject issuesInvalid ∧
    POST stringify0 parse0 rawInvalid up200 =
      { httpStatus := 400, body := .invalid "Invalid request payload" issuesInvalid } :=
  proxy_schema_violation_rejected stringify0 parse0 rawInvalid issuesInvalid up200 (by rfl)

/-- C10: on a valid request, an empty upstream body yields `data = null`
(no parse is attempted), while a non-empty body that fails to parse is
returned as the raw text. -/
theorem proxy_upstream_body_parsing
    (stringify : Json → String) (parse : String → Option Json)
    (raw : Json) (req : ParsedRequest) (up : UpstreamResponse)
    (h : safeParse raw = .ok req) :
    (up.body = "" →
      (POST stringify parse raw up).body
        = .result up.status up.statusText .null) ∧
    (up.body ≠ "" → parse up.body = none →
      (POST stringify parse raw up).body
        = .result up.status up.statusText (.text up.body)) := by
  constructor
  · intro hb
    simp [POST, postAction, h, postRespond, upstreamData, hb]
  · intro hb hp
    simp [POST, postAction, h, postRespond, upstreamData, hb, hp]

/-- Witness for C10: an empty body yields `null`, the unparsable body
"nope" comes back as text. -/
theorem proxy_upstream_body_parsing_witness :
    (POST stringify0 parse0 rawValid up200).body
      = .result 200 "OK" .null ∧
    (POST stringify0 parse0 rawValid upText).body
      = .result 502 "Bad Gateway" (.text "nope") :=
  ⟨(proxy_upstream_body_parsing stringify0 parse0 rawValid reqValid up200 (by rfl)).1
      (by rfl),
   (proxy_upstream_body_parsing stringify0 parse0 rawValid reqValid upText (by rfl)).2
      (by decide) (by rfl)⟩

/-! ### Snapshot Aggregator claims -/

theorem foldl_add_map_sum (f : α → ℚ) (l : List α) (init : ℚ) :
    l.foldl (fun acc i => acc + f i) init = init + (l.map f).sum := by
  induction l generalizing init with
  | nil => simp
  | cons x xs ih => simp [ih, add_assoc]

/-- C4: funding basis points are the raw rate × 10000 when a rate is
present and undefined when absent; the summary's average funding rate is
the sum of per-contract bps (absent contributing 0) divided by the number
of combined contracts, 0 on the empty list; a combined pair with rates
0.0001 and 0.0003 averages 2 bps. -/
theorem funding_bps_and_average :
    (∀ c s, (combineContract c (some s)).fundingRateBps
       = s.upcomingFundingRate.map (fun r => r * 10000))
    ∧ (∀ c, (combineContract c none).fundingRateBps = none)
    ∧ (∀ cs ms, (summarise cs ms).averageFundingRate =
        if cs.length = 0 then 0
        else (cs.map (fun i => i.fundingRateBps.getD 0)).sum / cs.length)
    ∧ (summarise
        [combineContract sampleContract (some (statsOnlyFunding 0.0001)),
         combineContract sampleContract (some (statsOnlyFunding 0.0003))]
        []).averageFundingRate = 2 := by
  refine ⟨fun c s => rfl, fun c => rfl, fun cs ms => ?_, ?_⟩
  · rcases cs with _ | ⟨x, xs⟩
    · simp [summarise]
    · simp [summarise, foldl_add_map_sum]
  · norm_num [summarise, combineContract, statsOnlyFunding]

/-- C5: the summary's top movers are the first 6 of the combined list
under the stable descending sort on absolute price-change percent
(contracts without a numeric change filtered out); they are ordered by
non-increasing absolute change; the sort is a permutation; equal absolute
changes keep the original order; and the concrete change list
[+1, -10, +3, -2, +0.5, +7, -0.1] selects [-10, +7, +3, -2, +1, +0.5]. -/
theorem top_movers_selection :
    (∀ cs ms, (summarise cs ms).topMovers =
        (sortDescBy (fun i => |i.priceChangePercent.getD 0|)
          (cs.filter (fun i => i.priceChangePercent.isSome))).take 6)
    ∧ (∀ cs ms, (summarise cs ms).topMovers.length ≤ 6)
    ∧ (∀ cs ms, ((summarise cs ms).topMovers).Pairwise
        (fun a b => |b.priceChangePercent.getD 0| ≤ |a.priceChangePercent.getD 0|))
    ∧ (∀ (key : CombinedContractMetrics → ℚ) (l : List CombinedContractMetrics),
        (sortDescBy key l).Perm l)
    ∧ ((summarise [pcpItem 1, pcpItem (-10), pcpItem 3, pcpItem (-2),
          pcpItem 0.5, pcpItem 7, pcpItem (-0.1)] []).topMovers
        = [pcpItem (-10), pcpItem 7, pcpItem 3, pcpItem (-2), pcpItem 1,
           pcpItem 0.5])
    ∧ ((summarise [pcpItemNamed "one" 5, pcpItemNamed "two" (-5)] []).topMovers
        = [pcpItemNamed "one" 5, pcpItemNamed "two" (-5)]) := by
  haveI hTot : IsTotal CombinedContractMetrics
      (fun a b => |b.priceChangePercent.getD 0| ≤ |a.priceChangePercent.getD 0|) :=
    ⟨fun a b => (le_total _ _).symm⟩
  haveI hTrans : IsTrans CombinedContractMetrics
      (fun a b => |b.priceChangePercent.getD 0| ≤ |a.priceChangePercent.getD 0|) :=
    ⟨fun _ _ _ hab hbc => le_trans hbc hab⟩
  refine ⟨fun cs ms => rfl, fun cs ms => ?_, fun cs ms => ?_, fun key l => ?_,
    ?_, ?_⟩
  · simp only [summarise]
    exact List.length_take_le 6 _
  · have hs := List.sorted_insertionSort
      (fun (a b : CombinedContractMetrics) =>
        |b.priceChangePercent.getD 0| ≤ |a.priceChangePercent.getD 0|)
      (cs.filter (fun i => i.priceChangePercent.isSome))
    exact List.Pairwise.sublist (List.take_sublist 6 _) hs
  · exact List.perm_insertionSort _ l
  · norm_num [summarise, sortDescBy, pcpItem, pcpItemNamed, abs_neg,
      abs_of_nonneg]
  · norm_num [summarise, sortDescBy, pcpItemNamed, abs_neg, abs_of_nonneg]

/-! ### Realtime trade ring buffer (C2) -/

set_option maxRecDepth 10000 in
/-- C2 fails on the code: `handleTrade` truncates before appending
(`[...prev.slice(-180), payload]`), so appending 200 trades one at a time
to an empty list retains 181 trades, not 180. -/
theorem trade_buffer_counterexample :
    (((List.range 200).map tradeN).foldl handleTrade []).length = 181 ∧
    (((List.range 200).map tradeN).foldl handleTrade []).length ≠ 180 := by
  have h : (((List.range 200).map tradeN).foldl handleTrade []).length = 181 := by
    decide
  exact ⟨h, by rw [h]; decide⟩

set_option maxRecDepth 10000 in
/-- C2 (amended): each aggTrade event truncates the previous list to its
last 180 entries and then appends the trade — equivalently, the new list
is the last 181 entries of `prev ++ [t]` — so the buffer never exceeds
181; after appending 200 trades one at a time to an empty list, exactly
the most recent 181 trades are retained, oldest-first. -/
theorem trade_buffer_amended :
    (∀ (prev : List Pi42AggTrade) t,
        handleTrade prev t = jsSliceLast 181 (prev ++ [t]))
    ∧ (∀ (prev : List Pi42AggTrade) t, (handleTrade prev t).length ≤ 181)
    ∧ ((List.range 200).map tradeN).foldl handleTrade []
        = ((List.range 200).map tradeN).drop 19 := by
  refine ⟨fun prev t => ?_, fun prev t => ?_, ?_⟩
  · have h1 : prev.length + 1 - 181 = prev.length - 180 := by omega
    have h2 : prev.length - 180 - prev.length = 0 := by omega
    simp [handleTrade, jsSliceLast, List.drop_append_eq_append_drop, h1, h2]
  · simp [handleTrade, jsSliceLast]
    omega
  · decide

/-! ### Realtime kline upsert (C6) -/

/-- C6: a kline matching an existing start time replaces that entry in
place (same position, unchanged length before truncation), a fresh start
time is appended, and either way the list is truncated to its last 400
entries; feeding two klines with start time "100" leaves exactly the
second one. -/
theorem kline_upsert (prev : List Pi42Kline) (k : Pi42Kline) :
    (∀ i, prev.findIdx? (fun item => item.startTime = k.startTime) = some i →
        handleKline prev (some k) = jsSliceLast 400 (prev.set i k)
        ∧ (prev.set i k).length = prev.length)
    ∧ (prev.findIdx? (fun item => item.startTime = k.startTime) = none →
        handleKline prev (some k) = jsSliceLast 400 (prev ++ [k]))
    ∧ handleKline (handleKline [] (some (k100 "10"))) (some (k100 "11"))
        = [k100 "11"] := by
  refine ⟨fun i hi => ⟨?_, by simp⟩, fun hn => ?_, ?_⟩
  · simp [handleKline, hi]
  · simp [handleKline, hn]
  · rfl

/-- Witness for C6: replacement on a matching start time and append on an
empty list, at concrete klines. -/
theorem kline_upsert_witness :
    handleKline [k100 "10"] (some (k100 "11")) = [k100 "11"] ∧
    handleKline [] (some (k100 "10")) = [k100 "10"] := by
  constructor
  · have h := (kline_upsert [k100 "10"] (k100 "11")).1 0 (by rfl)
    rw [h.1]
    rfl
  · have h := (kline_upsert [] (k100 "10")).2.1 (by rfl)
    rw [h]
    rfl

/-! ### Market bundle fetch (C7) -/

/-- C7: the bundle fetch issues the four calls and resolves only when all
four resolve — any rejection rejects the whole bundle, in which case the
caller leaves every state slice unchanged; on success the trades are the
most recent 120 of the returned list. -/
theorem bundle_all_or_nothing
    (s : DashState)
    (tickerRes : Except String (Option (DataWrap Pi42Ticker)))
    (depthRes : Except String (Option (DataWrap Pi42DepthResponse)))
    (tradesRes : Except String (Option (DataWrap (List Pi42AggTrade))))
    (klinesRes : Except String (Option (List Pi42Kline))) :
    ((∃ e, tickerRes = .error e) ∨ (∃ e, depthRes = .error e)
        ∨ (∃ e, tradesRes = .error e) ∨ (∃ e, klinesRes = .error e) →
      (∃ e, fetchMarketBundle tickerRes depthRes tradesRes klinesRes = .error e)
      ∧ applyBundleResult s
          (fetchMarketBundle tickerRes depthRes tradesRes klinesRes) = s)
    ∧ (∀ tw dw trw klw,
        fetchMarketBundle (.ok tw) (.ok dw) (.ok (some trw)) (.ok klw)
          = .ok { ticker := tw.map (·.data), depth := dw.map (·.data),
                  trades := jsSliceLast 120 trw.data, klines := klw.getD [] }
        ∧ (jsSliceLast 120 trw.data).length ≤ 120) := by
  constructor
  · intro h
    cases tickerRes <;> cases depthRes <;> cases tradesRes <;> cases klinesRes <;>
      simp_all [fetchMarketBundle, applyBundleResult]
  · intro tw dw trw klw
    refine ⟨rfl, ?_⟩
    simp [jsSliceLast]
    omega

/-- Witness for C7: a rejected ticker call rejects the bundle and leaves
the empty dashboard state unchanged. -/
theorem bundle_all_or_nothing_witness :
    (∃ e, fetchMarketBundle (Except.error "boom") (Except.ok none)
        (Except.ok none) (Except.ok none) = Except.error e)
    ∧ applyBundleResult s0
        (fetchMarketBundle (Except.error "boom") (Except.ok none)
          (Except.ok none) (Except.ok none))
        = s0 :=
  (bundle_all_or_nothing s0 (Except.error "boom") (Except.ok none)
    (Except.ok none) (Except.ok none)).1 (Or.inl ⟨"boom", rfl⟩)

/-! ### API Explorer submission (C8) -/

/-- C8 fails on the code: with method POST and an empty body text, the
body is omitted from the proxied payload (`undefined`), not parsed with
the empty string standing for `{}`. -/
theorem explorer_empty_body_counterexample :
    (executePayload parse0 explorerEmptyPost).map (fun p => p.body) = some none
    ∧ some (none : Option Json) ≠ some (some (Json.obj [])) := by
  refine ⟨rfl, ?_⟩
  intro h
  simp at h

/-- C8 (amended): `query` and `headers` are parsed with the empty
(trimmed) string standing for `{}`; the body is omitted when its text is
empty or the method is GET and parsed otherwise; a JSON parse failure of
any field that is parsed yields a local error and no proxy request. -/
theorem explorer_execute_amended
    (parse : String → Option Json) (f : ExplorerFields) :
    (jsTrim f.query ≠ "" → parse f.query = none →
      executePayload parse f = none)
    ∧ (jsTrim f.body ≠ "" → f.method ≠ "GET" → parse f.body = none →
      executePayload parse f = none)
    ∧ (jsTrim f.headers ≠ "" → parse f.headers = none →
      executePayload parse f = none)
    ∧ (∀ qv bv hv,
        (if jsTrim f.query = "" then some (Json.obj []) else parse f.query)
          = some qv →
        (if jsTrim f.body = "" || f.method = "GET" then some none
         else (parse f.body).map some) = some bv →
        (if jsTrim f.headers = "" then some (Json.obj []) else parse f.headers)
          = some hv →
        executePayload parse f = some
          { method := f.method, path := f.path, target := f.target,
            query := qv, body := bv, headers := hv })
    ∧ (f.method = "GET" → ∀ p, executePayload parse f = some p →
        p.body = none) := by
  refine ⟨?_, ?_, ?_, ?_, ?_⟩
  · intro h1 h2
    simp [executePayload, h1, h2]
  · intro hb hm hp
    cases hq : (if jsTrim f.query = "" then some (Json.obj [])
        else parse f.query) with
    | none => simp [executePayload, hq]
    | some qv => simp [executePayload, hq, hb, hm, hp]
  · intro hh hp
    simp only [executePayload]
    split
    · rfl
    · split
      · rfl
      · simp [hh, hp]
  · intro qv bv hv hq hb hh
    simp only [Bool.or_eq_true, decide_eq_true_eq] at hb
    simp [executePayload, hq, hb, hh]
  · intro hm p hp
    cases hq : (if jsTrim f.query = "" then some (Json.obj [])
        else parse f.query) with
    | none => simp [executePayload, hq] at hp
    | some qv =>
        cases hh : (if jsTrim f.headers = "" then some (Json.obj [])
            else parse f.headers) with
        | none => simp [executePayload, hq, hm, hh] at hp
        | some hv =>
            simp [executePayload, hq, hm, hh] at hp
            rw [← hp]

/-- Witness for C8 (amended): an unparsable non-empty query text produces
the local-error outcome (no proxy request) at a concrete form state. -/
theorem explorer_execute_amended_witness :
    executePayload parse0 explorerBadQuery = none :=
  (explorer_execute_amended parse0 explorerBadQuery).1 (by decide) rfl

/-! ### Realtime subscription lifecycle (C9) -/

theorem getLastD_append_singleton (l : List Selection) (a b : Selection) :
    (l ++ [b]).getLastD a = b := by
  induction l generalizing a with
  | nil => rfl
  | cons x xs ih => rw [List.cons_append, List.getLastD_cons]; exact ih x

theorem foldl_feedTraceFrom (sels : List Selection) (prev : Selection) :
    (feedTraceFrom prev sels).foldl stepFeed
      { activeTopicSets := [topicsFor prev],
        activeListenerSets := [topicsFor prev] }
      = { activeTopicSets := [topicsFor (sels.getLastD prev)],
          activeListenerSets := [topicsFor (sels.getLastD prev)] } := by
  induction sels generalizing prev with
  | nil => simp [feedTraceFrom]
  | cons sel rest ih =>
      simp only [feedTraceFrom, cleanupEvents, setupEvents, List.cons_append,
        List.nil_append, List.foldl_cons, stepFeed, removeOne, if_pos rfl,
        List.getLastD_cons]
      simpa using ih sel

theorem feedStatesFrom_bounded (sels : List Selection) (prev : Selection) :
    ∀ st ∈ feedStatesFrom
        { activeTopicSets := [topicsFor prev],
          activeListenerSets := [topicsFor prev] }
        (feedTraceFrom prev sels),
      st.activeTopicSets.length ≤ 1 ∧ st.activeListenerSets.length ≤ 1 := by
  induction sels generalizing prev with
  | nil =>
      intro st hst
      simp [feedTraceFrom, feedStatesFrom] at hst
      subst hst
      simp
  | cons sel rest ih =>
      intro st hst
      simp only [feedTraceFrom, cleanupEvents, setupEvents, List.cons_append,
        List.nil_append, feedStatesFrom, stepFeed, removeOne, if_pos rfl,
        List.mem_cons] at hst
      rcases hst with h | h | h | h | h
      · subst h; simp
      · subst h; simp
      · subst h; simp
      · subst h; simp
      · have := ih sel st
        simp only [feedStatesFrom] at this
        exact this (by simpa using h)

/-- C9: replaying any selection-change sequence, the previous topic set is
unsubscribed and its listeners detached before the next set is subscribed,
so every intermediate state has at most one active topic set and listener
set; after any sequence ending in a selection, exactly that selection's
topic set is subscribed once; in particular switching A → B → A leaves
exactly one active subscription set, A's. -/
theorem subscription_lifecycle :
    (∀ sels, ∀ st ∈ feedStates sels,
        st.activeTopicSets.length ≤ 1 ∧ st.activeListenerSets.length ≤ 1)
    ∧ (∀ sels sel, runFeed (sels ++ [sel])
        = { activeTopicSets := [topicsFor sel],
            activeListenerSets := [topicsFor sel] })
    ∧ (∀ A B, runFeed [A, B, A]
        = { activeTopicSets := [topicsFor A],
            activeListenerSets := [topicsFor A] }) := by
  have hrun : ∀ sels sel, runFeed (sels ++ [sel])
      = { activeTopicSets := [topicsFor sel],
          activeListenerSets := [topicsFor sel] } := by
    intro sels sel
    cases sels with
    | nil => simp [runFeed, feedTrace, setupEvents, feedTraceFrom, stepFeed]
    | cons s1 rest =>
        simp only [runFeed, feedTrace, List.cons_append, setupEvents,
          List.cons_append, List.nil_append, List.foldl_cons, stepFeed,
          List.nil_append]
        rw [foldl_feedTraceFrom (rest ++ [sel]) s1,
          getLastD_append_singleton]
  refine ⟨?_, hrun, fun A B => hrun [A, B] A⟩
  intro sels st hst
  cases sels with
  | nil =>
      simp [feedStates, feedTrace, feedStatesFrom] at hst
      subst hst
      simp
  | cons s1 rest =>
      simp only [feedStates, feedTrace, setupEvents, List.cons_append,
        List.nil_append, feedStatesFrom, stepFeed, List.mem_cons] at hst
      rcases hst with h | h | h
      · subst h; simp
      · subst h; simp
      · have := feedStatesFrom_bounded rest s1 st
        simp only [feedStatesFrom] at this
        exact this (by simpa using h)

/-- Witness for C9: the initial state is within bounds and switching
A → B → A leaves exactly A's topic set subscribed once. -/
theorem subscription_lifecycle_witness :
    (({ activeTopicSets := [], activeListenerSets := [] } :
        FeedState).activeTopicSets.length ≤ 1
      ∧ ({ activeTopicSets := [], activeListenerSets := [] } :
        FeedState).activeListenerSets.length ≤ 1)
    ∧ runFeed [selA, selB, selA]
        = { activeTopicSets := [topicsFor selA],
            activeListenerSets := [topicsFor selA] } := by
  have h := subscription_lifecycle
  exact ⟨h.1 [selA] { activeTopicSets := [], activeListenerSets := [] }
      (by decide), h.2.2 selA selB⟩

end Pi42
